import Mathlib

/-!
# Virtual desktop application group resource: handlers and acceptance checks

A shallow embedding of
`azurerm/internal/services/desktopvirtualization/virtual_desktop_application_group.go`
(schema, CreateUpdate, Read, Delete) and of the existence check of
`tests/virtual_desktop_workspace_resource_test.go`.

The remote management API is a client record over an arbitrary remote state `σ`:
every call takes the remote state and hands back its answer together with the next
remote state, so a theorem quantified over the client and `σ` holds for every
behaviour of the API.  Each handler reports the declarative state it leaves, the
error it returns, the remote state, and the trace of the API calls and `SetId`
calls it made.
-/

namespace DesktopVirtualization

/-! ## Errors -/

/-- Error values a handler returns.  `Errorf` is `fmt.Errorf format args...` kept
unrendered: the format string and the arguments in order, an `error` argument
being given by its message.  `raw` is an error value passed on as received. -/
inductive Error where
  | raw (msg : String)
  | Errorf (format : String) (args : List String)
  | ImportAsExistsError (resourceName : String) (id : String)
deriving DecidableEq, Repr

/-! ## Declarative state (`schema.ResourceData`) -/

/-- The declarative state of one application group: the identifier, the new-resource
flag, and one field per key of the schema. -/
structure ResourceData where
  id : String
  isNewResource : Bool
  name : String
  location : String
  resource_group_name : String
  tags : List (String × String)
  type : String
  host_pool_id : String
  friendly_name : String
  description : String
deriving DecidableEq, Repr

/-- The accessor `d.Id()`. -/
def ResourceData.Id (d : ResourceData) : String := d.id

/-- The accessor `d.IsNewResource()`. -/
def ResourceData.IsNewResource (d : ResourceData) : Bool := d.isNewResource

/-- The mutator `d.SetId(v)`. -/
def ResourceData.SetId (d : ResourceData) (v : String) : ResourceData :=
  { d with id := v }

/-- What the plugin SDK hands back to the orchestrator, `d.State()`: nothing at all
when the identifier is empty (the resource is dropped from tracked state), the
recorded state otherwise. -/
def ResourceData.State (d : ResourceData) : Option ResourceData :=
  if d.Id = "" then none else some d

/-! ## Remote resources and the API client -/

/-- The parsed identifier `parse.VirtualDesktopApplicationGroupId`. -/
structure VirtualDesktopApplicationGroupId where
  ResourceGroup : String
  Name : String
deriving DecidableEq, Repr

/-- The record `desktopvirtualization.ApplicationGroupProperties`. -/
structure ApplicationGroupProperties where
  ApplicationGroupType : String
  FriendlyName : Option String
  Description : Option String
  HostPoolArmPath : Option String
deriving DecidableEq, Repr

/-- The record `desktopvirtualization.ApplicationGroup`.  `Response` is the embedded
`autorest.Response`: the status code of the HTTP response attached to the result, or
`none` when no HTTP response is attached (the wrapped `*http.Response` is nil, as
after a transport failure).  Pointer fields are options. -/
structure ApplicationGroup where
  Response : Option Nat
  ID : Option String
  Location : Option String
  Tags : List (String × Option String)
  Properties : Option ApplicationGroupProperties
deriving DecidableEq, Repr

/-- Modelled from the spec: the value `f` returned by `client.Delete`, whose
declaration is not under src/.  The spec (section 6) gives
`Delete(resourceGroup, name) -> (longRunningOp, error)` and (section 9) calls
`f.Location()` the completion accessor of the poller, which hands back a result and
an error.  `Location` is what that accessor yields: the result, or the message of
the error. -/
structure LongRunningOp where
  Location : Except String String
deriving Repr

/-- The `ApplicationGroupsClient` calls the handlers use.  An `err` result is
`none` for Go's `nil` and the message of the error otherwise. -/
structure ApplicationGroupsClient (σ : Type) where
  Get : σ → String → String → ApplicationGroup × Option String × σ
  CreateOrUpdate : σ → String → String → ApplicationGroup → Option String × σ
  Delete : σ → String → String → LongRunningOp × Option String × σ

/-- What a handler did that the outside can see: remote calls and `d.SetId`. -/
inductive Event where
  | Get (resourceGroup : String) (name : String)
  | CreateOrUpdate (resourceGroup : String) (name : String) (parameters : ApplicationGroup)
  | Delete (resourceGroup : String) (name : String)
  | SetId (id : String)
deriving DecidableEq, Repr

/-- Result of one handler invocation. -/
structure Outcome (σ : Type) where
  d : ResourceData
  err : Option Error
  remote : σ
  trace : List Event

/-! ## Helpers of the repository that are not under src/ -/

/-- The helpers the handlers call whose bodies are not under src/, taken as
parameters: the identifier parser `parse.VirtualDesktopApplicationGroupID`,
`azure.NormalizeLocation`, and the outcome of writing the flattened tags inside
`tags.FlattenAndSet` (`none` when the write is accepted, the error the helper returns
otherwise). -/
structure Helpers where
  VirtualDesktopApplicationGroupID : String → Except Error VirtualDesktopApplicationGroupId
  NormalizeLocation : String → String
  SetTags : List (String × String) → Option Error

/-- Modelled from the spec: `utils.ResponseWasNotFound` is not under src/.  The
spec's "not-found response" is an attached HTTP response whose status is 404; a
result with no response attached is not one. -/
def ResponseWasNotFound (resp : Option Nat) : Bool :=
  match resp with
  | some code => code == 404
  | none => false

/-- Modelled from the spec: `tags.Expand` is not under src/.  It turns the declared
tag mapping into the payload's mapping of string pointers. -/
def Expand (tagsMap : List (String × String)) : List (String × Option String) :=
  tagsMap.map fun kv => (kv.1, some kv.2)

/-- Modelled from the spec: `tags.Flatten` is not under src/ ("tag flattening").  It
keeps the entries whose value is present. -/
def Flatten (tagMap : List (String × Option String)) : List (String × String) :=
  tagMap.filterMap fun kv => kv.2.map fun v => (kv.1, v)

/-- Modelled from the spec: `tags.FlattenAndSet` is not under src/.  It writes the
flattened remote tags into the `tags` field and reports the refusal of that write,
if any, leaving the field as it was. -/
def FlattenAndSet (h : Helpers) (d : ResourceData) (tagMap : List (String × Option String)) :
    ResourceData × Option Error :=
  let flattened := Flatten tagMap
  match h.SetTags flattened with
  | some err => (d, some err)
  | none => ({ d with tags := flattened }, none)

/-! ## The handlers -/

/-- The state after the field writes of Read that precede the tag write (source
lines 166-170): `name` and `resource_group_name` from the parsed identifier, and
`location`, normalised, when the remote resource carries one. -/
def readFields (h : Helpers) (d : ResourceData) (id : VirtualDesktopApplicationGroupId)
    (resp : ApplicationGroup) : ResourceData :=
  let d1 := { d with name := id.Name }
  let d2 := { d1 with resource_group_name := id.ResourceGroup }
  match resp.Location with
  | some location => { d2 with location := h.NormalizeLocation location }
  | none => d2

/-- The handler `resourceArmVirtualDesktopApplicationGroupRead`. -/
def resourceArmVirtualDesktopApplicationGroupRead {σ : Type} (h : Helpers)
    (client : ApplicationGroupsClient σ) (d : ResourceData) (s : σ) : Outcome σ :=
  match h.VirtualDesktopApplicationGroupID d.Id with
  | .error err => ⟨d, some err, s, []⟩
  | .ok id =>
    match client.Get s id.ResourceGroup id.Name with
    | (resp, some err, s1) =>
      if ResponseWasNotFound resp.Response then
        ⟨d.SetId "", none, s1, [Event.Get id.ResourceGroup id.Name, Event.SetId ""]⟩
      else
        ⟨d, some (Error.Errorf
          "Error making Read request on Virtual Desktop Host Pool %q (Resource Group %q): %+v"
          [id.Name, id.ResourceGroup, err]), s1, [Event.Get id.ResourceGroup id.Name]⟩
    | (resp, none, s1) =>
      let w := FlattenAndSet h (readFields h d id resp) resp.Tags
      ⟨w.1, w.2, s1, [Event.Get id.ResourceGroup id.Name]⟩

/-- The payload `context` that CreateUpdate builds from the declared fields (source
lines 108-125). -/
def buildParameters (h : Helpers) (d : ResourceData) : ApplicationGroup :=
  { Response := none
    ID := none
    Location := some (h.NormalizeLocation d.location)
    Tags := Expand d.tags
    Properties := some
      { ApplicationGroupType := d.type
        FriendlyName := some d.friendly_name
        Description := some d.description
        HostPoolArmPath := some d.host_pool_id } }

/-- The existence probe of CreateUpdate (source lines 95-106): the error it returns,
if any, the remote state after it and the calls it made.  It is skipped unless
`d.IsNewResource()`. -/
def existenceProbe {σ : Type} (client : ApplicationGroupsClient σ) (d : ResourceData) (s : σ) :
    Option Error × σ × List Event :=
  let name := d.name
  let resourceGroup := d.resource_group_name
  if d.IsNewResource then
    match client.Get s resourceGroup name with
    | (existing, err, s1) =>
      match err, ResponseWasNotFound existing.Response with
      | some e, false =>
        (some (Error.Errorf
          "Error checking for presence of existing Virtual Desktop Host Pool %q (Resource Group %q): %s"
          [name, resourceGroup, e]), s1, [Event.Get resourceGroup name])
      | _, _ =>
        match existing.ID with
        | some id =>
          if id ≠ "" then
            (some (Error.ImportAsExistsError "azurerm_virtual_host_pool" id), s1,
              [Event.Get resourceGroup name])
          else (none, s1, [Event.Get resourceGroup name])
        | none => (none, s1, [Event.Get resourceGroup name])
  else (none, s, [])

/-- The handler `resourceArmVirtualDesktopApplicationGroupCreateUpdate`. -/
def resourceArmVirtualDesktopApplicationGroupCreateUpdate {σ : Type} (h : Helpers)
    (client : ApplicationGroupsClient σ) (d : ResourceData) (s : σ) : Outcome σ :=
  let name := d.name
  let resourceGroup := d.resource_group_name
  match existenceProbe client d s with
  | (some err, s1, tr1) => ⟨d, some err, s1, tr1⟩
  | (none, s1, tr1) =>
    let context := buildParameters h d
    let tr2 := tr1 ++ [Event.CreateOrUpdate resourceGroup name context]
    match client.CreateOrUpdate s1 resourceGroup name context with
    | (some err, s2) =>
      ⟨d, some (Error.Errorf
        "Error creating Virtual Desktop Host Pool %q (Resource Group %q): %+v"
        [name, resourceGroup, err]), s2, tr2⟩
    | (none, s2) =>
      let tr3 := tr2 ++ [Event.Get resourceGroup name]
      match client.Get s2 resourceGroup name with
      | (_, some err, s3) =>
        ⟨d, some (Error.Errorf
          "Error retrieving Virtual Desktop Host Pool %q (Resource Group %q): %+v"
          [name, resourceGroup, err]), s3, tr3⟩
      | (result, none, s3) =>
        match result.ID with
        | none =>
          ⟨d, some (Error.Errorf
            "Cannot read Virtual Desktop Host Pool %q (Resource Group %q) ID"
            [name, resourceGroup]), s3, tr3⟩
        | some id =>
          let r := resourceArmVirtualDesktopApplicationGroupRead h client (d.SetId id) s3
          ⟨r.d, r.err, r.remote, tr3 ++ [Event.SetId id] ++ r.trace⟩

/-- The handler `resourceArmVirtualDesktopApplicationGroupDelete`.  The value of
`f.Location()` is computed and dropped, as in the source. -/
def resourceArmVirtualDesktopApplicationGroupDelete {σ : Type} (h : Helpers)
    (client : ApplicationGroupsClient σ) (d : ResourceData) (s : σ) : Outcome σ :=
  match h.VirtualDesktopApplicationGroupID d.Id with
  | .error err => ⟨d, some err, s, []⟩
  | .ok id =>
    match client.Delete s id.ResourceGroup id.Name with
    | (_, some err, s1) =>
      ⟨d, some (Error.Errorf
        "Error deleting Virtual Desktop Host Pool %q (Resource Group %q): %+v"
        [id.Name, id.ResourceGroup, err]), s1, [Event.Delete id.ResourceGroup id.Name]⟩
    | (f, none, s1) =>
      let _ := f.Location
      ⟨d, none, s1, [Event.Delete id.ResourceGroup id.Name]⟩

/-! ## The schema -/

/-- Value types of the schema (`schema.TypeString`, `schema.TypeMap`). -/
inductive ValueType where
  | TypeString
  | TypeMap
deriving DecidableEq, Repr

/-- One entry of the schema map (`schema.Schema`).  `ValidateFunc` takes the value
and the key and yields the errors; no error means the value is accepted. -/
structure Schema where
  Type_ : ValueType
  Required : Bool
  Optional : Bool
  ForceNew : Bool
  ValidateFunc : Option (String → String → List Error)

/-- Go's `len(v)` of a string: the number of bytes of its UTF-8 encoding. -/
def len (v : String) : Nat := v.utf8ByteSize

/-- The validator `validation.StringLenBetween(min, max)` of the plugin SDK: an
error exactly when `len(v) < min || len(v) > max`. -/
def StringLenBetween (min max : Nat) (v : String) (k : String) : List Error :=
  if len v < min ∨ len v > max then
    [Error.Errorf "expected length of %s to be in the range (%d - %d), got %s"
      [k, toString min, toString max, v]]
  else []

/-- The validator `validation.StringInSlice(valid, ignoreCase)` of the plugin SDK. -/
def StringInSlice (valid : List String) (ignoreCase : Bool) (v : String) (k : String) :
    List Error :=
  if valid.any (fun str => v == str || (ignoreCase && v.toLower == str.toLower)) then []
  else [Error.Errorf "expected %s to be one of %v, got %s" [k, toString valid, v]]

/-- The schema pieces that come from helpers not under src/, taken as parameters:
`validate.DevSpaceName()`, `azure.SchemaLocation()`,
`azure.SchemaResourceGroupName()` and `tags.Schema()`. -/
structure SchemaHelpers where
  DevSpaceName : String → String → List Error
  SchemaLocation : Schema
  SchemaResourceGroupName : Schema
  tagsSchema : Schema

/-- The schema map of `resourceArmVirtualDesktopApplicationGroup`. -/
def resourceArmVirtualDesktopApplicationGroup (h : SchemaHelpers) : List (String × Schema) :=
  [ ("name",
      { Type_ := ValueType.TypeString, Required := true, Optional := false, ForceNew := true
        ValidateFunc := some h.DevSpaceName }),
    ("location", h.SchemaLocation),
    ("resource_group_name", h.SchemaResourceGroupName),
    ("tags", h.tagsSchema),
    ("type",
      { Type_ := ValueType.TypeString, Required := true, Optional := false, ForceNew := true
        ValidateFunc := some (StringInSlice ["Desktop", "RemoteApp"] false) }),
    ("host_pool_id",
      { Type_ := ValueType.TypeString, Required := true, Optional := false, ForceNew := false
        ValidateFunc := none }),
    ("friendly_name",
      { Type_ := ValueType.TypeString, Required := false, Optional := true, ForceNew := false
        ValidateFunc := some (StringLenBetween 1 64) }),
    ("description",
      { Type_ := ValueType.TypeString, Required := false, Optional := true, ForceNew := false
        ValidateFunc := some (StringLenBetween 1 512) }) ]

/-- The entry of the schema under a key. -/
def schemaField (h : SchemaHelpers) (key : String) : Option Schema :=
  (resourceArmVirtualDesktopApplicationGroup h).lookup key

/-- A value is accepted for a key when the key is in the schema and its validator,
if it has one, yields no error. -/
def accepts (h : SchemaHelpers) (key : String) (v : String) : Bool :=
  match schemaField h key with
  | none => false
  | some sch =>
    match sch.ValidateFunc with
    | none => true
    | some f => (f v key).isEmpty

/-! ## The acceptance test's existence check -/

/-- The parsed identifier `parse.DesktopVirtualizationWorkspaceId`. -/
structure DesktopVirtualizationWorkspaceId where
  ResourceGroup : String
  Name : String
deriving DecidableEq, Repr

/-- The record `desktopvirtualization.Workspace` as far as the check reads it:
`Response` is the status code of the attached HTTP response, `none` when the wrapped
`*http.Response` is nil, in which case reading `result.StatusCode` dereferences
nil. -/
structure Workspace where
  Response : Option Nat
  ID : Option String
deriving DecidableEq, Repr

/-- The `WorkspacesClient` call the check uses. -/
structure WorkspacesClient (σ : Type) where
  Get : σ → String → String → Workspace × Option String × σ

/-- One tracked resource of the orchestrator's state (`terraform.ResourceState`):
its type and the identifier of its primary instance. -/
structure ResourceState where
  Type_ : String
  PrimaryID : String
deriving DecidableEq, Repr

/-- How a check function ends: it returns (an error or nil), or it aborts on a nil
pointer dereference. -/
inductive CheckResult where
  | returned (err : Option Error)
  | nilDereference
deriving DecidableEq, Repr

/-- The check `testCheckAzureRMDesktopVirtualizationWorkspaceExists(resourceName)`
applied to the tracked resources `s.RootModule().Resources`; `parseID` is
`parse.DesktopVirtualizationWorkspaceID`, which is not under src/.  The result comes
with the API calls made. -/
def testCheckAzureRMDesktopVirtualizationWorkspaceExists {σ : Type}
    (parseID : String → Except Error DesktopVirtualizationWorkspaceId)
    (client : WorkspacesClient σ) (resourceName : String)
    (resources : List (String × ResourceState)) (s : σ) : CheckResult × List Event :=
  match resources.lookup resourceName with
  | none => (CheckResult.returned (some (Error.Errorf "Not found: %s" [resourceName])), [])
  | some rs =>
    match parseID rs.PrimaryID with
    | .error err => (CheckResult.returned (some err), [])
    | .ok id =>
      match client.Get s id.ResourceGroup id.Name with
      | (_, none, _) => (CheckResult.returned none, [Event.Get id.ResourceGroup id.Name])
      | (result, some err, _) =>
        match result.Response with
        | none => (CheckResult.nilDereference, [Event.Get id.ResourceGroup id.Name])
        | some StatusCode =>
          if StatusCode = 404 then
            (CheckResult.returned (some (Error.Errorf
              "Bad: Virtual Desktop Workspace %q (Resource Group: %q) does not exist"
              [id.Name, id.ResourceGroup])), [Event.Get id.ResourceGroup id.Name])
          else
            (CheckResult.returned (some (Error.Errorf
              "Bad: Get virtualDesktopWorspaceClient: %+v" [err])),
              [Event.Get id.ResourceGroup id.Name])

/-! ## Concrete inputs -/

/-- A scripted remote: the remote state is the list of answers the coming `Get`
calls will receive, in order (a not-found answer once the list is used up);
`CreateOrUpdate` and `Delete` answer as given. -/
def scriptedClient (createErr : Option String) (del : LongRunningOp × Option String) :
    ApplicationGroupsClient (List (ApplicationGroup × Option String)) where
  Get := fun s _ _ =>
    match s with
    | [] => (⟨some 404, none, none, [], none⟩, some "ResourceNotFound", [])
    | r :: rest => (r.1, r.2, rest)
  CreateOrUpdate := fun s _ _ _ => (createErr, s)
  Delete := fun s _ _ => (del.1, del.2, s)

/-- An identifier string of an application group. -/
def sampleID : String :=
  "/subscriptions/sub/resourceGroups/rg1/providers/Microsoft.DesktopVirtualization/applicationgroups/ag1"

/-- Helpers for the concrete inputs: the parser knows `sampleID` and rejects every
other string, locations are left as they are, tag writes are accepted. -/
def sampleHelpers : Helpers where
  VirtualDesktopApplicationGroupID := fun input =>
    if input = sampleID then .ok ⟨"rg1", "ag1"⟩
    else .error (Error.raw "cannot parse the identifier")
  NormalizeLocation := fun l => l
  SetTags := fun _ => none

/-- Declared state of a fresh application group `ag1` in resource group `rg1`. -/
def freshState : ResourceData :=
  { id := "", isNewResource := true, name := "ag1", location := "westus2"
    resource_group_name := "rg1", tags := [], type := "Desktop", host_pool_id := "hp1"
    friendly_name := "old name", description := "old description" }

/-- Tracked state of the same application group once created. -/
def trackedState : ResourceData :=
  { freshState with id := sampleID, isNewResource := false }

/-- The remote application group as a successful `Get` returns it. -/
def remoteGroup : ApplicationGroup :=
  { Response := some 200, ID := some sampleID, Location := some "westus2", Tags := []
    Properties := some
      { ApplicationGroupType := "RemoteApp", FriendlyName := some "new name"
        Description := some "new description", HostPoolArmPath := some "hp2" } }

/-- A not-found answer of `Get`. -/
def notFoundAnswer : ApplicationGroup × Option String :=
  (⟨some 404, none, none, [], none⟩, some "ResourceNotFound")

/-- A server-error answer of `Get`. -/
def serverErrorAnswer : ApplicationGroup × Option String :=
  (⟨some 500, none, none, [], none⟩, some "InternalServerError")

/-- An answer of `Get` that reports no error and carries no identifier. -/
def noIdentifierAnswer : ApplicationGroup × Option String :=
  (⟨some 200, none, none, [], none⟩, none)

/-- An accepted deletion (`client.Delete` returns no error) whose completion accessor
`f.Location()` reports an error. -/
def failedDeletion : LongRunningOp × Option String :=
  (⟨.error "the deletion did not complete"⟩, none)

/-- A deletion the remote refuses: `client.Delete` itself returns an error. -/
def refusedDeletion : LongRunningOp × Option String :=
  (⟨.error "the deletion did not complete"⟩, some "Conflict")

/-- Helpers that differ from `sampleHelpers` in refusing every tag write. -/
def refusingHelpers : Helpers where
  VirtualDesktopApplicationGroupID := sampleHelpers.VirtualDesktopApplicationGroupID
  NormalizeLocation := sampleHelpers.NormalizeLocation
  SetTags := fun _ => some (Error.raw "tags: the value is refused")

/-- The remote application group after it was moved to another location and given a
tag. -/
def movedGroup : ApplicationGroup :=
  { Response := some 200, ID := some sampleID, Location := some "eastus"
    Tags := [("env", some "test")], Properties := none }

/-- Schema helpers for the concrete inputs. -/
def sampleSchemaHelpers : SchemaHelpers where
  DevSpaceName := fun _ _ => []
  SchemaLocation := ⟨ValueType.TypeString, true, false, true, none⟩
  SchemaResourceGroupName := ⟨ValueType.TypeString, true, false, true, none⟩
  tagsSchema := ⟨ValueType.TypeMap, false, true, false, none⟩

/-- Thirty-three copies of the two-byte character U+00E9. -/
def accented33 : String := String.mk (List.replicate 33 (Char.ofNat 233))

/-- The workspace parser for the concrete inputs. -/
def sampleWorkspaceID (input : String) : Except Error DesktopVirtualizationWorkspaceId :=
  if input = "ws-id" then .ok ⟨"acctestRG-123", "acctws123"⟩
  else .error (Error.raw "cannot parse the identifier")

/-- A workspaces client whose `Get` always fails in transport: an error and no HTTP
response. -/
def transportFailureClient : WorkspacesClient Unit where
  Get := fun s _ _ => (⟨none, none⟩, some "context deadline exceeded", s)

/-- Answers for a fresh creation whose built-in read finds the resource gone: probe
not found, follow-up fetch successful, read fetch not found. -/
def createThenVanish : List (ApplicationGroup × Option String) :=
  [notFoundAnswer, (remoteGroup, none), notFoundAnswer]

/-- Answers for a fresh creation whose built-in read fails: probe not found,
follow-up fetch successful, read fetch answered with a server error. -/
def createThenReadFails : List (ApplicationGroup × Option String) :=
  [notFoundAnswer, (remoteGroup, none), serverErrorAnswer]

/-- Answers for a fresh creation that goes through: probe not found, follow-up fetch
and read fetch successful. -/
def createAndRead : List (ApplicationGroup × Option String) :=
  [notFoundAnswer, (remoteGroup, none), (remoteGroup, none)]

/-- Tracked resources holding the workspace of the acceptance test. -/
def trackedWorkspaces : List (String × ResourceState) :=
  [("azurerm_virtual_desktop_workspace.test", ⟨"azurerm_virtual_desktop_workspace", "ws-id"⟩)]

/-! ## Lemmas shared by the theorems -/

/-- The existence probe never calls `SetId`. -/
theorem existenceProbe_no_SetId {σ : Type} (client : ApplicationGroupsClient σ)
    (d : ResourceData) (s : σ) (v : String) :
    Event.SetId v ∉ (existenceProbe client d s).2.2 := by
  rcases hget : client.Get s d.resource_group_name d.name with ⟨existing, err, s1⟩
  cases hnew : d.IsNewResource <;> cases err <;>
    cases hnf : ResponseWasNotFound existing.Response <;> cases hid : existing.ID <;>
    simp [existenceProbe, hget, hnew, hnf, hid]
  all_goals (split <;> simp)

/-- Neither the field writes of Read nor the tag write touch the identifier. -/
theorem FlattenAndSet_readFields_Id (h : Helpers) (d : ResourceData)
    (id : VirtualDesktopApplicationGroupId) (resp : ApplicationGroup) :
    (FlattenAndSet h (readFields h d id resp) resp.Tags).1.Id = d.Id := by
  simp only [FlattenAndSet, readFields, ResourceData.Id]
  cases hl : resp.Location <;> cases ht : h.SetTags (Flatten resp.Tags) <;> rfl

/-- A successful Read parsed the identifier and either kept it, or cleared it after a
not-found answer. -/
theorem read_success_cases {σ : Type} (h : Helpers) (client : ApplicationGroupsClient σ)
    (d : ResourceData) (s : σ)
    (hok : (resourceArmVirtualDesktopApplicationGroupRead h client d s).err = none) :
    ∃ rid, h.VirtualDesktopApplicationGroupID d.Id = .ok rid ∧
      ((resourceArmVirtualDesktopApplicationGroupRead h client d s).d.Id = d.Id ∨
       ((resourceArmVirtualDesktopApplicationGroupRead h client d s).d.Id = "" ∧
        ∃ resp e s4, client.Get s rid.ResourceGroup rid.Name = (resp, some e, s4) ∧
          ResponseWasNotFound resp.Response = true)) := by
  rcases hparse : h.VirtualDesktopApplicationGroupID d.Id with perr | rid
  · simp [resourceArmVirtualDesktopApplicationGroupRead, hparse] at hok
  · refine ⟨rid, rfl, ?_⟩
    rcases hget : client.Get s rid.ResourceGroup rid.Name with ⟨resp, err, s4⟩
    cases err with
    | none =>
      left
      simp only [resourceArmVirtualDesktopApplicationGroupRead, hparse, hget]
      exact FlattenAndSet_readFields_Id h d rid resp
    | some e =>
      cases hnf : ResponseWasNotFound resp.Response with
      | false =>
        simp [resourceArmVirtualDesktopApplicationGroupRead, hparse, hget, hnf] at hok
      | true =>
        right
        refine ⟨?_, resp, e, s4, rfl, hnf⟩
        have hout : resourceArmVirtualDesktopApplicationGroupRead h client d s =
            ⟨d.SetId "", none, s4,
              [Event.Get rid.ResourceGroup rid.Name, Event.SetId ""]⟩ := by
          simp [resourceArmVirtualDesktopApplicationGroupRead, hparse, hget, hnf]
        rw [hout]
        rfl

/-- The field writes of Read leave the identifier alone. -/
theorem readFields_Id (h : Helpers) (d : ResourceData)
    (id : VirtualDesktopApplicationGroupId) (resp : ApplicationGroup) :
    (readFields h d id resp).Id = d.Id := by
  simp only [readFields, ResourceData.Id]
  cases hl : resp.Location <;> rfl

/-- A Read that returns an error leaves the state as it was, unless the error is the
refusal of the tag write, which comes after the field writes. -/
theorem read_error_state {σ : Type} (h : Helpers) (client : ApplicationGroupsClient σ)
    (d : ResourceData) (s : σ)
    (herr : (resourceArmVirtualDesktopApplicationGroupRead h client d s).err ≠ none) :
    (resourceArmVirtualDesktopApplicationGroupRead h client d s).d = d ∨
    ∃ id resp s1 e, h.VirtualDesktopApplicationGroupID d.Id = .ok id ∧
      client.Get s id.ResourceGroup id.Name = (resp, none, s1) ∧
      h.SetTags (Flatten resp.Tags) = some e ∧
      (resourceArmVirtualDesktopApplicationGroupRead h client d s).d =
        readFields h d id resp := by
  rcases hparse : h.VirtualDesktopApplicationGroupID d.Id with perr | rid
  · left
    simp [resourceArmVirtualDesktopApplicationGroupRead, hparse]
  · rcases hget : client.Get s rid.ResourceGroup rid.Name with ⟨resp, err, s1⟩
    cases err with
    | some e =>
      cases hnf : ResponseWasNotFound resp.Response with
      | true =>
        simp [resourceArmVirtualDesktopApplicationGroupRead, hparse, hget, hnf] at herr
      | false =>
        left
        simp [resourceArmVirtualDesktopApplicationGroupRead, hparse, hget, hnf]
    | none =>
      cases ht : h.SetTags (Flatten resp.Tags) with
      | none =>
        simp [resourceArmVirtualDesktopApplicationGroupRead, hparse, hget, FlattenAndSet, ht]
          at herr
      | some e =>
        right
        refine ⟨rid, resp, s1, e, rfl, hget, ht, ?_⟩
        simp [resourceArmVirtualDesktopApplicationGroupRead, hparse, hget, FlattenAndSet, ht]

/-- A Read that returns nil has either cleared the identifier after a not-found
answer, or written the fields and the tags of the fetched resource. -/
theorem read_success_state {σ : Type} (h : Helpers) (client : ApplicationGroupsClient σ)
    (d : ResourceData) (s : σ)
    (hok : (resourceArmVirtualDesktopApplicationGroupRead h client d s).err = none) :
    (∃ id resp e s1, h.VirtualDesktopApplicationGroupID d.Id = .ok id ∧
      client.Get s id.ResourceGroup id.Name = (resp, some e, s1) ∧
      ResponseWasNotFound resp.Response = true ∧
      (resourceArmVirtualDesktopApplicationGroupRead h client d s).d = d.SetId "") ∨
    ∃ id resp s1, h.VirtualDesktopApplicationGroupID d.Id = .ok id ∧
      client.Get s id.ResourceGroup id.Name = (resp, none, s1) ∧
      h.SetTags (Flatten resp.Tags) = none ∧
      (resourceArmVirtualDesktopApplicationGroupRead h client d s).d =
        { readFields h d id resp with tags := Flatten resp.Tags } := by
  rcases hparse : h.VirtualDesktopApplicationGroupID d.Id with perr | rid
  · simp [resourceArmVirtualDesktopApplicationGroupRead, hparse] at hok
  · rcases hget : client.Get s rid.ResourceGroup rid.Name with ⟨resp, err, s1⟩
    cases err with
    | some e =>
      cases hnf : ResponseWasNotFound resp.Response with
      | true =>
        left
        refine ⟨rid, resp, e, s1, rfl, hget, hnf, ?_⟩
        simp [resourceArmVirtualDesktopApplicationGroupRead, hparse, hget, hnf]
      | false =>
        simp [resourceArmVirtualDesktopApplicationGroupRead, hparse, hget, hnf] at hok
    | none =>
      cases ht : h.SetTags (Flatten resp.Tags) with
      | some e =>
        simp [resourceArmVirtualDesktopApplicationGroupRead, hparse, hget, FlattenAndSet, ht]
          at hok
      | none =>
        right
        refine ⟨rid, resp, s1, rfl, hget, ht, ?_⟩
        simp [resourceArmVirtualDesktopApplicationGroupRead, hparse, hget, FlattenAndSet, ht]

/-- CreateUpdate either returns an error with the state as it was and no `SetId`
call, or passes the probe, the upsert and the follow-up fetch, sets the identifier
that fetch returned and ends as the built-in Read on that state ends. -/
theorem createUpdate_cases {σ : Type} (h : Helpers) (client : ApplicationGroupsClient σ)
    (d : ResourceData) (s : σ) :
    ((resourceArmVirtualDesktopApplicationGroupCreateUpdate h client d s).d = d ∧
     (resourceArmVirtualDesktopApplicationGroupCreateUpdate h client d s).err ≠ none ∧
     ∀ v, Event.SetId v ∉
       (resourceArmVirtualDesktopApplicationGroupCreateUpdate h client d s).trace) ∨
    ∃ s1 tr1 s2 result s3 id,
      existenceProbe client d s = (none, s1, tr1) ∧
      client.CreateOrUpdate s1 d.resource_group_name d.name (buildParameters h d) =
        (none, s2) ∧
      client.Get s2 d.resource_group_name d.name = (result, none, s3) ∧
      result.ID = some id ∧
      Event.SetId id ∈ (resourceArmVirtualDesktopApplicationGroupCreateUpdate h client d s).trace ∧
      (resourceArmVirtualDesktopApplicationGroupCreateUpdate h client d s).d =
        (resourceArmVirtualDesktopApplicationGroupRead h client (d.SetId id) s3).d ∧
      (resourceArmVirtualDesktopApplicationGroupCreateUpdate h client d s).err =
        (resourceArmVirtualDesktopApplicationGroupRead h client (d.SetId id) s3).err := by
  have hno0 := existenceProbe_no_SetId client d s
  rcases hp : existenceProbe client d s with ⟨perr, s1, tr1⟩
  have hno : ∀ v, Event.SetId v ∉ tr1 := by
    intro v
    have := hno0 v
    rwa [hp] at this
  cases perr with
  | some e => left; simp [resourceArmVirtualDesktopApplicationGroupCreateUpdate, hp, hno]
  | none =>
    rcases hc : client.CreateOrUpdate s1 d.resource_group_name d.name (buildParameters h d)
      with ⟨cerr, s2⟩
    cases cerr with
    | some e =>
      left; simp [resourceArmVirtualDesktopApplicationGroupCreateUpdate, hp, hc, hno]
    | none =>
      rcases hg : client.Get s2 d.resource_group_name d.name with ⟨result, gerr, s3⟩
      cases gerr with
      | some e =>
        left; simp [resourceArmVirtualDesktopApplicationGroupCreateUpdate, hp, hc, hg, hno]
      | none =>
        cases hid : result.ID with
        | none =>
          left
          simp [resourceArmVirtualDesktopApplicationGroupCreateUpdate, hp, hc, hg, hid, hno]
        | some id =>
          right
          refine ⟨s1, tr1, s2, result, s3, id, rfl, hc, hg, hid, ?_, ?_, ?_⟩ <;>
            simp [resourceArmVirtualDesktopApplicationGroupCreateUpdate, hp, hc, hg, hid]

/-- A string has at least as many bytes as characters. -/
theorem length_le_len (v : String) : v.length ≤ len v := by
  have key : ∀ cs : List Char, cs.length ≤ String.utf8ByteSize.go cs := by
    intro cs
    induction cs with
    | nil => simp [String.utf8ByteSize.go]
    | cons c cs ih =>
      simp only [String.utf8ByteSize.go, List.length_cons]
      have := Char.utf8Size_pos c
      omega
  exact key v.data

/-- A string of ASCII characters has as many bytes as characters. -/
theorem len_eq_length_of_ascii (v : String) (hascii : ∀ c ∈ v.data, c.toNat < 128) :
    len v = v.length := by
  have one : ∀ c : Char, c.toNat < 128 → c.utf8Size = 1 := by
    intro c hc
    unfold Char.utf8Size
    have hle : c.val ≤ 127 := by
      show c.val.toNat ≤ 127
      have : c.toNat = c.val.toNat := rfl
      omega
    simp [hle]
  have key : ∀ cs : List Char, (∀ c ∈ cs, c.toNat < 128) →
      String.utf8ByteSize.go cs = cs.length := by
    intro cs
    induction cs with
    | nil => intro _; simp [String.utf8ByteSize.go]
    | cons c cs ih =>
      intro hcs
      simp only [String.utf8ByteSize.go, List.length_cons]
      rw [ih (fun x hx => hcs x (List.mem_cons_of_mem c hx)), one c (hcs c (List.mem_cons_self c cs))]
  exact key v.data hascii

/-! ## Create or update -/

/-- C1, the claim as stated fails: on a fresh creation whose existence probe returns
without error but carries no identifier, the handler issues `CreateOrUpdate` and
succeeds instead of failing with the import-collision error. -/
theorem probe_without_identifier_is_not_a_collision :
    freshState.IsNewResource = true ∧
    ((scriptedClient none failedDeletion).Get
        [noIdentifierAnswer, (remoteGroup, none), (remoteGroup, none)]
        freshState.resource_group_name freshState.name).2.1 = none ∧
    (resourceArmVirtualDesktopApplicationGroupCreateUpdate sampleHelpers
        (scriptedClient none failedDeletion) freshState
        [noIdentifierAnswer, (remoteGroup, none), (remoteGroup, none)]).err = none ∧
    Event.CreateOrUpdate "rg1" "ag1" (buildParameters sampleHelpers freshState) ∈
      (resourceArmVirtualDesktopApplicationGroupCreateUpdate sampleHelpers
        (scriptedClient none failedDeletion) freshState
        [noIdentifierAnswer, (remoteGroup, none), (remoteGroup, none)]).trace := by
  decide

/-- C1, amended: on a fresh creation whose existence probe returns without error and
carries a non-empty identifier, the handler fails with the import-collision error
built by `tf.ImportAsExistsError` for that identifier; the probe is the only call it
makes (no `CreateOrUpdate`, no `SetId`), the remote state is the one the probe left
and the declarative state is untouched. -/
theorem createUpdate_import_collision {σ : Type} (h : Helpers)
    (client : ApplicationGroupsClient σ) (d : ResourceData) (s s1 : σ)
    (existing : ApplicationGroup) (id : String)
    (hnew : d.IsNewResource = true)
    (hget : client.Get s d.resource_group_name d.name = (existing, none, s1))
    (hid : existing.ID = some id) (hne : id ≠ "") :
    (resourceArmVirtualDesktopApplicationGroupCreateUpdate h client d s).err =
        some (Error.ImportAsExistsError "azurerm_virtual_host_pool" id) ∧
    (resourceArmVirtualDesktopApplicationGroupCreateUpdate h client d s).trace =
        [Event.Get d.resource_group_name d.name] ∧
    (resourceArmVirtualDesktopApplicationGroupCreateUpdate h client d s).remote = s1 ∧
    (resourceArmVirtualDesktopApplicationGroupCreateUpdate h client d s).d = d := by
  have hp : existenceProbe client d s =
      (some (Error.ImportAsExistsError "azurerm_virtual_host_pool" id), s1,
        [Event.Get d.resource_group_name d.name]) := by
    simp [existenceProbe, hnew, hget, hid, hne]
  simp [resourceArmVirtualDesktopApplicationGroupCreateUpdate, hp]

/-- Witness of `createUpdate_import_collision`: creating `ag1` while the remote
already holds it. -/
theorem createUpdate_import_collision_witness :
    freshState.IsNewResource = true ∧
    (resourceArmVirtualDesktopApplicationGroupCreateUpdate sampleHelpers
        (scriptedClient none failedDeletion) freshState [(remoteGroup, none)]).err =
      some (Error.ImportAsExistsError "azurerm_virtual_host_pool" sampleID) ∧
    (resourceArmVirtualDesktopApplicationGroupCreateUpdate sampleHelpers
        (scriptedClient none failedDeletion) freshState [(remoteGroup, none)]).trace =
      [Event.Get "rg1" "ag1"] :=
  ⟨by decide,
   (createUpdate_import_collision sampleHelpers (scriptedClient none failedDeletion)
      freshState [(remoteGroup, none)] [] remoteGroup sampleID
      (by decide) (by decide) (by decide) (by decide)).1,
   (createUpdate_import_collision sampleHelpers (scriptedClient none failedDeletion)
      freshState [(remoteGroup, none)] [] remoteGroup sampleID
      (by decide) (by decide) (by decide) (by decide)).2.1⟩

/-- C2: once the existence probe is passed, the handler returns an error when
`CreateOrUpdate` fails (and then the upsert is the last call: no follow-up `Get`),
when the follow-up `Get` fails, and when the follow-up `Get` returns no identifier;
in all three cases `SetId` is not called and the declarative state is untouched. -/
theorem createUpdate_errors_without_SetId {σ : Type} (h : Helpers)
    (client : ApplicationGroupsClient σ) (d : ResourceData) (s s1 : σ) (tr1 : List Event)
    (hprobe : existenceProbe client d s = (none, s1, tr1)) :
    (∀ e s2,
      client.CreateOrUpdate s1 d.resource_group_name d.name (buildParameters h d) =
        (some e, s2) →
      (resourceArmVirtualDesktopApplicationGroupCreateUpdate h client d s).err ≠ none ∧
      (resourceArmVirtualDesktopApplicationGroupCreateUpdate h client d s).trace =
        tr1 ++ [Event.CreateOrUpdate d.resource_group_name d.name (buildParameters h d)] ∧
      (∀ v, Event.SetId v ∉
        (resourceArmVirtualDesktopApplicationGroupCreateUpdate h client d s).trace) ∧
      (resourceArmVirtualDesktopApplicationGroupCreateUpdate h client d s).d = d) ∧
    (∀ s2 result e s3,
      client.CreateOrUpdate s1 d.resource_group_name d.name (buildParameters h d) =
        (none, s2) →
      client.Get s2 d.resource_group_name d.name = (result, some e, s3) →
      (resourceArmVirtualDesktopApplicationGroupCreateUpdate h client d s).err ≠ none ∧
      (∀ v, Event.SetId v ∉
        (resourceArmVirtualDesktopApplicationGroupCreateUpdate h client d s).trace) ∧
      (resourceArmVirtualDesktopApplicationGroupCreateUpdate h client d s).d = d) ∧
    (∀ s2 result s3,
      client.CreateOrUpdate s1 d.resource_group_name d.name (buildParameters h d) =
        (none, s2) →
      client.Get s2 d.resource_group_name d.name = (result, none, s3) →
      result.ID = none →
      (resourceArmVirtualDesktopApplicationGroupCreateUpdate h client d s).err ≠ none ∧
      (∀ v, Event.SetId v ∉
        (resourceArmVirtualDesktopApplicationGroupCreateUpdate h client d s).trace) ∧
      (resourceArmVirtualDesktopApplicationGroupCreateUpdate h client d s).d = d) := by
  have hno : ∀ v, Event.SetId v ∉ tr1 := by
    intro v
    have := existenceProbe_no_SetId client d s v
    rwa [hprobe] at this
  refine ⟨?_, ?_, ?_⟩
  · intro e s2 hc
    simp [resourceArmVirtualDesktopApplicationGroupCreateUpdate, hprobe, hc, hno]
  · intro s2 result e s3 hc hg
    simp [resourceArmVirtualDesktopApplicationGroupCreateUpdate, hprobe, hc, hg, hno]
  · intro s2 result s3 hc hg hid
    simp [resourceArmVirtualDesktopApplicationGroupCreateUpdate, hprobe, hc, hg, hid, hno]

/-- Witness of `createUpdate_errors_without_SetId`: a fresh creation that passes the
probe and whose upsert is refused, an update whose follow-up fetch fails, and an
update whose follow-up fetch carries no identifier. -/
theorem createUpdate_errors_without_SetId_witness :
    existenceProbe (scriptedClient (some "Conflict") failedDeletion) freshState
        [notFoundAnswer] = (none, [], [Event.Get "rg1" "ag1"]) ∧
    ((resourceArmVirtualDesktopApplicationGroupCreateUpdate sampleHelpers
        (scriptedClient (some "Conflict") failedDeletion) freshState
        [notFoundAnswer]).err ≠ none ∧
     (resourceArmVirtualDesktopApplicationGroupCreateUpdate sampleHelpers
        (scriptedClient (some "Conflict") failedDeletion) freshState
        [notFoundAnswer]).trace =
      [Event.Get "rg1" "ag1"] ++
        [Event.CreateOrUpdate freshState.resource_group_name freshState.name
          (buildParameters sampleHelpers freshState)]) ∧
    existenceProbe (scriptedClient none failedDeletion) trackedState
        [serverErrorAnswer] = (none, [serverErrorAnswer], []) ∧
    (resourceArmVirtualDesktopApplicationGroupCreateUpdate sampleHelpers
        (scriptedClient none failedDeletion) trackedState [serverErrorAnswer]).err ≠ none ∧
    (resourceArmVirtualDesktopApplicationGroupCreateUpdate sampleHelpers
        (scriptedClient none failedDeletion) trackedState [noIdentifierAnswer]).err ≠ none :=
  ⟨by decide,
   ⟨((createUpdate_errors_without_SetId sampleHelpers
      (scriptedClient (some "Conflict") failedDeletion) freshState
      [notFoundAnswer] [] [Event.Get "rg1" "ag1"] (by decide)).1
      "Conflict" [] (by decide)).1,
    ((createUpdate_errors_without_SetId sampleHelpers
      (scriptedClient (some "Conflict") failedDeletion) freshState
      [notFoundAnswer] [] [Event.Get "rg1" "ag1"] (by decide)).1
      "Conflict" [] (by decide)).2.1⟩,
   by decide,
   ((createUpdate_errors_without_SetId sampleHelpers
      (scriptedClient none failedDeletion) trackedState
      [serverErrorAnswer] [serverErrorAnswer] [] (by decide)).2.1
      [serverErrorAnswer] serverErrorAnswer.1 "InternalServerError" []
      (by decide) (by decide)).1,
   ((createUpdate_errors_without_SetId sampleHelpers
      (scriptedClient none failedDeletion) trackedState
      [noIdentifierAnswer] [noIdentifierAnswer] [] (by decide)).2.2
      [noIdentifierAnswer] noIdentifierAnswer.1 []
      (by decide) (by decide) (by decide)).1⟩

/-- C3, the claim as stated fails: a fresh creation whose follow-up fetch returns the
identifier `sampleID` and whose built-in read then finds the resource gone returns
success with an empty identifier in the declarative state. -/
theorem createUpdate_success_with_empty_identifier :
    (resourceArmVirtualDesktopApplicationGroupCreateUpdate sampleHelpers
        (scriptedClient none failedDeletion) freshState createThenVanish).err = none ∧
    Event.SetId sampleID ∈
      (resourceArmVirtualDesktopApplicationGroupCreateUpdate sampleHelpers
        (scriptedClient none failedDeletion) freshState createThenVanish).trace ∧
    (resourceArmVirtualDesktopApplicationGroupCreateUpdate sampleHelpers
        (scriptedClient none failedDeletion) freshState createThenVanish).d.Id = "" ∧
    (resourceArmVirtualDesktopApplicationGroupCreateUpdate sampleHelpers
        (scriptedClient none failedDeletion) freshState createThenVanish).d.Id ≠ sampleID := by
  decide

/-- C3, amended: whenever CreateUpdate returns success, the probe was passed, the
upsert and the follow-up fetch succeeded and the follow-up fetch returned an
identifier, which is not empty when the identifier parser rejects the empty string;
the declarative state then holds that identifier, unless the fetch of the built-in
read was answered not-found, in which case the identifier is empty. -/
theorem createUpdate_success_identifier {σ : Type} (h : Helpers)
    (client : ApplicationGroupsClient σ) (d : ResourceData) (s : σ)
    (hempty : ∀ v, h.VirtualDesktopApplicationGroupID "" ≠ .ok v)
    (hok : (resourceArmVirtualDesktopApplicationGroupCreateUpdate h client d s).err = none) :
    ∃ s1 tr1 s2 result s3 id,
      existenceProbe client d s = (none, s1, tr1) ∧
      client.CreateOrUpdate s1 d.resource_group_name d.name (buildParameters h d) =
        (none, s2) ∧
      client.Get s2 d.resource_group_name d.name = (result, none, s3) ∧
      result.ID = some id ∧ id ≠ "" ∧
      ((resourceArmVirtualDesktopApplicationGroupCreateUpdate h client d s).d.Id = id ∨
       ((resourceArmVirtualDesktopApplicationGroupCreateUpdate h client d s).d.Id = "" ∧
        ∃ rid resp e s4, h.VirtualDesktopApplicationGroupID id = .ok rid ∧
          client.Get s3 rid.ResourceGroup rid.Name = (resp, some e, s4) ∧
          ResponseWasNotFound resp.Response = true)) := by
  rcases hp : existenceProbe client d s with ⟨perr, s1, tr1⟩
  cases perr with
  | some e => simp [resourceArmVirtualDesktopApplicationGroupCreateUpdate, hp] at hok
  | none =>
    rcases hc : client.CreateOrUpdate s1 d.resource_group_name d.name (buildParameters h d)
      with ⟨cerr, s2⟩
    cases cerr with
    | some e => simp [resourceArmVirtualDesktopApplicationGroupCreateUpdate, hp, hc] at hok
    | none =>
      rcases hg : client.Get s2 d.resource_group_name d.name with ⟨result, gerr, s3⟩
      cases gerr with
      | some e =>
        simp [resourceArmVirtualDesktopApplicationGroupCreateUpdate, hp, hc, hg] at hok
      | none =>
        cases hid : result.ID with
        | none =>
          simp [resourceArmVirtualDesktopApplicationGroupCreateUpdate, hp, hc, hg, hid] at hok
        | some id =>
          have hout : resourceArmVirtualDesktopApplicationGroupCreateUpdate h client d s =
              ⟨(resourceArmVirtualDesktopApplicationGroupRead h client (d.SetId id) s3).d,
               (resourceArmVirtualDesktopApplicationGroupRead h client (d.SetId id) s3).err,
               (resourceArmVirtualDesktopApplicationGroupRead h client (d.SetId id) s3).remote,
               tr1 ++ [Event.CreateOrUpdate d.resource_group_name d.name (buildParameters h d)]
                 ++ [Event.Get d.resource_group_name d.name] ++ [Event.SetId id] ++
                 (resourceArmVirtualDesktopApplicationGroupRead h client (d.SetId id) s3).trace⟩ := by
            simp [resourceArmVirtualDesktopApplicationGroupCreateUpdate, hp, hc, hg, hid]
          rw [hout] at hok
          obtain ⟨rid, hrid, hcases⟩ := read_success_cases h client (d.SetId id) s3 hok
          have hsid : (d.SetId id).Id = id := rfl
          rw [hsid] at hrid hcases
          have hne : id ≠ "" := by
            intro hid0
            rw [hid0] at hrid
            exact hempty rid hrid
          refine ⟨s1, tr1, s2, result, s3, id, rfl, hc, hg, hid, hne, ?_⟩
          rw [hout]
          rcases hcases with hkeep | ⟨hclear, resp, e, s4, hget4, hnf⟩
          · exact Or.inl hkeep
          · exact Or.inr ⟨hclear, rid, resp, e, s4, hrid, hget4, hnf⟩

/-- Witness of `createUpdate_success_identifier`: a fresh creation that goes
through leaves `sampleID` in the declarative state. -/
theorem createUpdate_success_identifier_witness :
    (resourceArmVirtualDesktopApplicationGroupCreateUpdate sampleHelpers
        (scriptedClient none failedDeletion) freshState createAndRead).err = none ∧
    (resourceArmVirtualDesktopApplicationGroupCreateUpdate sampleHelpers
        (scriptedClient none failedDeletion) freshState createAndRead).d.Id = sampleID ∧
    ∃ s1 tr1 s2 result s3 id,
      existenceProbe (scriptedClient none failedDeletion) freshState createAndRead =
        (none, s1, tr1) ∧
      (scriptedClient none failedDeletion).CreateOrUpdate s1 freshState.resource_group_name
        freshState.name (buildParameters sampleHelpers freshState) = (none, s2) ∧
      (scriptedClient none failedDeletion).Get s2 freshState.resource_group_name
        freshState.name = (result, none, s3) ∧
      result.ID = some id ∧ id ≠ "" ∧
      ((resourceArmVirtualDesktopApplicationGroupCreateUpdate sampleHelpers
          (scriptedClient none failedDeletion) freshState createAndRead).d.Id = id ∨
       ((resourceArmVirtualDesktopApplicationGroupCreateUpdate sampleHelpers
          (scriptedClient none failedDeletion) freshState createAndRead).d.Id = "" ∧
        ∃ rid resp e s4, sampleHelpers.VirtualDesktopApplicationGroupID id = .ok rid ∧
          (scriptedClient none failedDeletion).Get s3 rid.ResourceGroup rid.Name =
            (resp, some e, s4) ∧
          ResponseWasNotFound resp.Response = true)) :=
  ⟨by decide, by decide,
   createUpdate_success_identifier sampleHelpers (scriptedClient none failedDeletion)
     freshState createAndRead
     (by
       intro v hv
       rw [show sampleHelpers.VirtualDesktopApplicationGroupID "" =
         .error (Error.raw "cannot parse the identifier") from rfl] at hv
       cases hv)
     (by decide)⟩

/-! ## Read -/

/-- C4: for a state whose identifier parses, a failed `Get` answered not-found makes
Read clear the identifier (the SDK then reports no state at all: the resource is
absent) and return nil; a failed `Get` with any other answer makes Read return an
error, with no `SetId` call and the declarative state untouched. -/
theorem read_not_found_clears_other_failure_errors {σ : Type} (h : Helpers)
    (client : ApplicationGroupsClient σ) (d : ResourceData) (s : σ)
    (id : VirtualDesktopApplicationGroupId)
    (hparse : h.VirtualDesktopApplicationGroupID d.Id = .ok id) :
    (∀ resp e s1, client.Get s id.ResourceGroup id.Name = (resp, some e, s1) →
      ResponseWasNotFound resp.Response = true →
      (resourceArmVirtualDesktopApplicationGroupRead h client d s).err = none ∧
      (resourceArmVirtualDesktopApplicationGroupRead h client d s).d.Id = "" ∧
      (resourceArmVirtualDesktopApplicationGroupRead h client d s).d.State = none) ∧
    (∀ resp e s1, client.Get s id.ResourceGroup id.Name = (resp, some e, s1) →
      ResponseWasNotFound resp.Response = false →
      (resourceArmVirtualDesktopApplicationGroupRead h client d s).err ≠ none ∧
      (∀ v, Event.SetId v ∉
        (resourceArmVirtualDesktopApplicationGroupRead h client d s).trace) ∧
      (resourceArmVirtualDesktopApplicationGroupRead h client d s).d.Id = d.Id ∧
      (resourceArmVirtualDesktopApplicationGroupRead h client d s).d = d) := by
  constructor
  · intro resp e s1 hget hnf
    have hout : resourceArmVirtualDesktopApplicationGroupRead h client d s =
        ⟨d.SetId "", none, s1, [Event.Get id.ResourceGroup id.Name, Event.SetId ""]⟩ := by
      simp [resourceArmVirtualDesktopApplicationGroupRead, hparse, hget, hnf]
    rw [hout]
    exact ⟨rfl, rfl, rfl⟩
  · intro resp e s1 hget hnf
    simp [resourceArmVirtualDesktopApplicationGroupRead, hparse, hget, hnf]

/-- Witness of `read_not_found_clears_other_failure_errors`: reading the tracked
group when the remote answers not-found, and when it answers with a server error. -/
theorem read_not_found_clears_other_failure_errors_witness :
    sampleHelpers.VirtualDesktopApplicationGroupID trackedState.Id = .ok ⟨"rg1", "ag1"⟩ ∧
    ((resourceArmVirtualDesktopApplicationGroupRead sampleHelpers
        (scriptedClient none failedDeletion) trackedState [notFoundAnswer]).err = none ∧
     (resourceArmVirtualDesktopApplicationGroupRead sampleHelpers
        (scriptedClient none failedDeletion) trackedState [notFoundAnswer]).d.Id = "" ∧
     (resourceArmVirtualDesktopApplicationGroupRead sampleHelpers
        (scriptedClient none failedDeletion) trackedState [notFoundAnswer]).d.State = none) ∧
    (resourceArmVirtualDesktopApplicationGroupRead sampleHelpers
        (scriptedClient none failedDeletion) trackedState [serverErrorAnswer]).err ≠ none :=
  ⟨rfl,
   (read_not_found_clears_other_failure_errors sampleHelpers
      (scriptedClient none failedDeletion) trackedState [notFoundAnswer] ⟨"rg1", "ag1"⟩
      rfl).1 notFoundAnswer.1 "ResourceNotFound" [] (by decide) (by decide),
   ((read_not_found_clears_other_failure_errors sampleHelpers
      (scriptedClient none failedDeletion) trackedState [serverErrorAnswer] ⟨"rg1", "ag1"⟩
      rfl).2 serverErrorAnswer.1 "InternalServerError" [] (by decide) (by decide)).1⟩

/-- C5, the claim as stated fails: a successful Read of the tracked group against a
remote group of type `RemoteApp` with host pool `hp2`, friendly name `new name` and
description `new description` leaves `type`, `host_pool_id`, `friendly_name` and
`description` at their former values. -/
theorem read_leaves_specific_attributes :
    (scriptedClient none failedDeletion).Get [(remoteGroup, none)] "rg1" "ag1" =
      (remoteGroup, none, []) ∧
    remoteGroup.Properties =
      some ⟨"RemoteApp", some "new name", some "new description", some "hp2"⟩ ∧
    (resourceArmVirtualDesktopApplicationGroupRead sampleHelpers
        (scriptedClient none failedDeletion) trackedState [(remoteGroup, none)]).err = none ∧
    (resourceArmVirtualDesktopApplicationGroupRead sampleHelpers
        (scriptedClient none failedDeletion) trackedState [(remoteGroup, none)]).d.type =
      "Desktop" ∧
    (resourceArmVirtualDesktopApplicationGroupRead sampleHelpers
        (scriptedClient none failedDeletion) trackedState
        [(remoteGroup, none)]).d.host_pool_id = "hp1" ∧
    (resourceArmVirtualDesktopApplicationGroupRead sampleHelpers
        (scriptedClient none failedDeletion) trackedState
        [(remoteGroup, none)]).d.friendly_name = "old name" ∧
    (resourceArmVirtualDesktopApplicationGroupRead sampleHelpers
        (scriptedClient none failedDeletion) trackedState
        [(remoteGroup, none)]).d.description = "old description" := by
  decide

/-- C5, amended: after a successful `Get`, Read has set `name` and
`resource_group_name` from the parsed identifier and `location` to the normalised
remote location when the remote resource carries one (it is left as it was
otherwise); `tags` is set to the flattened remote tags and Read returns nil when the
tag write is accepted, and Read returns the refusal with `tags` as it was
otherwise. -/
theorem read_copies_common_fields {σ : Type} (h : Helpers)
    (client : ApplicationGroupsClient σ) (d : ResourceData) (s s1 : σ)
    (id : VirtualDesktopApplicationGroupId) (resp : ApplicationGroup)
    (hparse : h.VirtualDesktopApplicationGroupID d.Id = .ok id)
    (hget : client.Get s id.ResourceGroup id.Name = (resp, none, s1)) :
    (resourceArmVirtualDesktopApplicationGroupRead h client d s).d.name = id.Name ∧
    (resourceArmVirtualDesktopApplicationGroupRead h client d s).d.resource_group_name =
      id.ResourceGroup ∧
    (∀ l, resp.Location = some l →
      (resourceArmVirtualDesktopApplicationGroupRead h client d s).d.location =
        h.NormalizeLocation l) ∧
    (resp.Location = none →
      (resourceArmVirtualDesktopApplicationGroupRead h client d s).d.location = d.location) ∧
    (h.SetTags (Flatten resp.Tags) = none →
      (resourceArmVirtualDesktopApplicationGroupRead h client d s).err = none ∧
      (resourceArmVirtualDesktopApplicationGroupRead h client d s).d.tags =
        Flatten resp.Tags) ∧
    (∀ e, h.SetTags (Flatten resp.Tags) = some e →
      (resourceArmVirtualDesktopApplicationGroupRead h client d s).err = some e ∧
      (resourceArmVirtualDesktopApplicationGroupRead h client d s).d.tags = d.tags) := by
  have hout : resourceArmVirtualDesktopApplicationGroupRead h client d s =
      ⟨(FlattenAndSet h (readFields h d id resp) resp.Tags).1,
       (FlattenAndSet h (readFields h d id resp) resp.Tags).2, s1,
       [Event.Get id.ResourceGroup id.Name]⟩ := by
    simp [resourceArmVirtualDesktopApplicationGroupRead, hparse, hget]
  rw [hout]
  simp only [FlattenAndSet, readFields]
  cases hl : resp.Location <;> cases ht : h.SetTags (Flatten resp.Tags) <;> simp

/-- Witness of `read_copies_common_fields`: reading the tracked group while the
remote holds it. -/
theorem read_copies_common_fields_witness :
    sampleHelpers.VirtualDesktopApplicationGroupID trackedState.Id = .ok ⟨"rg1", "ag1"⟩ ∧
    (scriptedClient none failedDeletion).Get [(remoteGroup, none)] "rg1" "ag1" =
      (remoteGroup, none, []) ∧
    (resourceArmVirtualDesktopApplicationGroupRead sampleHelpers
        (scriptedClient none failedDeletion) trackedState [(remoteGroup, none)]).d.name =
      "ag1" ∧
    (resourceArmVirtualDesktopApplicationGroupRead sampleHelpers
        (scriptedClient none failedDeletion) trackedState
        [(remoteGroup, none)]).d.resource_group_name = "rg1" :=
  ⟨rfl, by decide,
   (read_copies_common_fields sampleHelpers (scriptedClient none failedDeletion)
      trackedState [(remoteGroup, none)] [] ⟨"rg1", "ag1"⟩ remoteGroup rfl (by decide)).1,
   (read_copies_common_fields sampleHelpers (scriptedClient none failedDeletion)
      trackedState [(remoteGroup, none)] [] ⟨"rg1", "ag1"⟩ remoteGroup rfl
      (by decide)).2.1⟩

/-! ## Delete -/

/-- C6, the code at the failing input: the deletion of the tracked group is accepted
(`client.Delete` returns no error) and the completion accessor `f.Location()` reports
an error; Delete returns nil all the same, having made the one `client.Delete` call,
and it does so whatever the accessor yields. -/
theorem delete_returns_nil_whatever_the_accessor_yields :
    sampleHelpers.VirtualDesktopApplicationGroupID trackedState.Id = .ok ⟨"rg1", "ag1"⟩ ∧
    (scriptedClient none failedDeletion).Delete [] "rg1" "ag1" =
      (⟨.error "the deletion did not complete"⟩, none, []) ∧
    (resourceArmVirtualDesktopApplicationGroupDelete sampleHelpers
        (scriptedClient none failedDeletion) trackedState []).err = none ∧
    (resourceArmVirtualDesktopApplicationGroupDelete sampleHelpers
        (scriptedClient none failedDeletion) trackedState []).trace =
      [Event.Delete "rg1" "ag1"] ∧
    ∀ loc : Except String String,
      (resourceArmVirtualDesktopApplicationGroupDelete sampleHelpers
        (scriptedClient none (⟨loc⟩, none)) trackedState []).err = none :=
  ⟨rfl, rfl, rfl, rfl, fun _ => rfl⟩

/-! ## Error messages -/

/-- C7, the code at the failing inputs: the import-collision error of the application
group handler is built for the resource type `azurerm_virtual_host_pool`, and the
errors surfaced for a refused upsert, a failed read fetch and a refused deletion are
formatted as errors of a `Virtual Desktop Host Pool`. -/
theorem errors_name_the_host_pool :
    (resourceArmVirtualDesktopApplicationGroupCreateUpdate sampleHelpers
        (scriptedClient none failedDeletion) freshState [(remoteGroup, none)]).err =
      some (Error.ImportAsExistsError "azurerm_virtual_host_pool" sampleID) ∧
    (resourceArmVirtualDesktopApplicationGroupCreateUpdate sampleHelpers
        (scriptedClient (some "Conflict") failedDeletion) freshState [notFoundAnswer]).err =
      some (Error.Errorf
        "Error creating Virtual Desktop Host Pool %q (Resource Group %q): %+v"
        ["ag1", "rg1", "Conflict"]) ∧
    (resourceArmVirtualDesktopApplicationGroupRead sampleHelpers
        (scriptedClient none failedDeletion) trackedState [serverErrorAnswer]).err =
      some (Error.Errorf
        "Error making Read request on Virtual Desktop Host Pool %q (Resource Group %q): %+v"
        ["ag1", "rg1", "InternalServerError"]) ∧
    (resourceArmVirtualDesktopApplicationGroupDelete sampleHelpers
        (scriptedClient none refusedDeletion) trackedState []).err =
      some (Error.Errorf
        "Error deleting Virtual Desktop Host Pool %q (Resource Group %q): %+v"
        ["ag1", "rg1", "Conflict"]) := by
  decide

/-! ## State left behind by the handlers -/

/-- C8, the claim as stated fails, at two inputs.  A fresh creation whose built-in
read fails with a server error returns an error after `SetId`: the state is not the
state before the call, its identifier is not empty, and nothing but the identifier
was changed.  A Read of the tracked group whose tag write is refused returns an
error after `location` was written: the state is not the state before the call, its
identifier is not empty, and its tags are not those of the remote resource. -/
theorem error_returned_after_part_of_the_state_changed :
    ((resourceArmVirtualDesktopApplicationGroupCreateUpdate sampleHelpers (scriptedClient none failedDeletion) freshState createThenReadFails).err ≠ none ∧
     (resourceArmVirtualDesktopApplicationGroupCreateUpdate sampleHelpers (scriptedClient none failedDeletion) freshState createThenReadFails).d ≠ freshState ∧
     (resourceArmVirtualDesktopApplicationGroupCreateUpdate sampleHelpers (scriptedClient none failedDeletion) freshState createThenReadFails).d.Id ≠ "" ∧
     (resourceArmVirtualDesktopApplicationGroupCreateUpdate sampleHelpers (scriptedClient none failedDeletion) freshState createThenReadFails).d =
       freshState.SetId sampleID) ∧
    ((resourceArmVirtualDesktopApplicationGroupRead refusingHelpers (scriptedClient none failedDeletion) trackedState [(movedGroup, none)]).err ≠ none ∧
     (resourceArmVirtualDesktopApplicationGroupRead refusingHelpers (scriptedClient none failedDeletion) trackedState [(movedGroup, none)]).d ≠ trackedState ∧
     (resourceArmVirtualDesktopApplicationGroupRead refusingHelpers (scriptedClient none failedDeletion) trackedState [(movedGroup, none)]).d.Id ≠ "" ∧
     (resourceArmVirtualDesktopApplicationGroupRead refusingHelpers (scriptedClient none failedDeletion) trackedState [(movedGroup, none)]).d.location = "eastus" ∧
     (resourceArmVirtualDesktopApplicationGroupRead refusingHelpers (scriptedClient none failedDeletion) trackedState [(movedGroup, none)]).d.tags ≠
       Flatten movedGroup.Tags) := by
  decide

/-- C8, amended.  Delete never changes the declarative state.  A Read that returns
nil has either cleared the identifier, after a not-found answer, or written `name`,
`resource_group_name`, `location` (when the fetched resource carries one) and the
tags of the fetched resource; a Read that
returns an error leaves the state identical to the state before the call, unless the
error is the refusal of the tag write, in which case the fields other than the tags
have been written.  A CreateUpdate that returns nil has passed the probe, the upsert
and the follow-up fetch, and its state is the state with the identifier of that
fetch after a built-in Read that returned nil: cleared, or with the fields and tags
of the resource that Read fetched.  A CreateUpdate that returns an error leaves the
state identical to the state before the call and has not called `SetId`, or it has
set the identifier of the follow-up fetch and its built-in Read failed: the state is
then the state before the call with that identifier, or, when the failure is the
refusal of the tag write, that state with the fields other than the tags written. -/
theorem handlers_state_after_call {σ : Type} (h : Helpers)
    (client : ApplicationGroupsClient σ) (d : ResourceData) (s : σ) :
    (resourceArmVirtualDesktopApplicationGroupDelete h client d s).d = d ∧
    ((resourceArmVirtualDesktopApplicationGroupRead h client d s).err ≠ none →
      (resourceArmVirtualDesktopApplicationGroupRead h client d s).d = d ∨
      ∃ id resp s1 e, h.VirtualDesktopApplicationGroupID d.Id = .ok id ∧
        client.Get s id.ResourceGroup id.Name = (resp, none, s1) ∧
        h.SetTags (Flatten resp.Tags) = some e ∧
        (resourceArmVirtualDesktopApplicationGroupRead h client d s).d = readFields h d id resp) ∧
    ((resourceArmVirtualDesktopApplicationGroupRead h client d s).err = none →
      (∃ id resp e s1, h.VirtualDesktopApplicationGroupID d.Id = .ok id ∧
        client.Get s id.ResourceGroup id.Name = (resp, some e, s1) ∧
        ResponseWasNotFound resp.Response = true ∧
        (resourceArmVirtualDesktopApplicationGroupRead h client d s).d = d.SetId "") ∨
      ∃ id resp s1, h.VirtualDesktopApplicationGroupID d.Id = .ok id ∧
        client.Get s id.ResourceGroup id.Name = (resp, none, s1) ∧
        h.SetTags (Flatten resp.Tags) = none ∧
        (resourceArmVirtualDesktopApplicationGroupRead h client d s).d =
          { readFields h d id resp with tags := Flatten resp.Tags }) ∧
    ((resourceArmVirtualDesktopApplicationGroupCreateUpdate h client d s).err ≠ none →
      ((resourceArmVirtualDesktopApplicationGroupCreateUpdate h client d s).d = d ∧
        ∀ v, Event.SetId v ∉ (resourceArmVirtualDesktopApplicationGroupCreateUpdate h client d s).trace) ∨
      ∃ s1 tr1 s2 result s3 id,
        existenceProbe client d s = (none, s1, tr1) ∧
        client.CreateOrUpdate s1 d.resource_group_name d.name (buildParameters h d) =
          (none, s2) ∧
        client.Get s2 d.resource_group_name d.name = (result, none, s3) ∧
        result.ID = some id ∧
        Event.SetId id ∈ (resourceArmVirtualDesktopApplicationGroupCreateUpdate h client d s).trace ∧
        ((resourceArmVirtualDesktopApplicationGroupCreateUpdate h client d s).d = d.SetId id ∨
         ∃ rid resp s4 e, h.VirtualDesktopApplicationGroupID id = .ok rid ∧
          client.Get s3 rid.ResourceGroup rid.Name = (resp, none, s4) ∧
          h.SetTags (Flatten resp.Tags) = some e ∧
          (resourceArmVirtualDesktopApplicationGroupCreateUpdate h client d s).d = readFields h (d.SetId id) rid resp)) ∧
    ((resourceArmVirtualDesktopApplicationGroupCreateUpdate h client d s).err = none →
      ∃ s1 tr1 s2 result s3 id,
        existenceProbe client d s = (none, s1, tr1) ∧
        client.CreateOrUpdate s1 d.resource_group_name d.name (buildParameters h d) =
          (none, s2) ∧
        client.Get s2 d.resource_group_name d.name = (result, none, s3) ∧
        result.ID = some id ∧
        Event.SetId id ∈ (resourceArmVirtualDesktopApplicationGroupCreateUpdate h client d s).trace ∧
        ((∃ rid resp e s4, h.VirtualDesktopApplicationGroupID id = .ok rid ∧
          client.Get s3 rid.ResourceGroup rid.Name = (resp, some e, s4) ∧
          ResponseWasNotFound resp.Response = true ∧
          (resourceArmVirtualDesktopApplicationGroupCreateUpdate h client d s).d = d.SetId "") ∨
         ∃ rid resp s4, h.VirtualDesktopApplicationGroupID id = .ok rid ∧
          client.Get s3 rid.ResourceGroup rid.Name = (resp, none, s4) ∧
          h.SetTags (Flatten resp.Tags) = none ∧
          (resourceArmVirtualDesktopApplicationGroupCreateUpdate h client d s).d =
            { readFields h (d.SetId id) rid resp with tags := Flatten resp.Tags })) := by
  refine ⟨?_, read_error_state h client d s, read_success_state h client d s, ?_, ?_⟩
  · rcases hparse : h.VirtualDesktopApplicationGroupID d.Id with perr | rid
    · simp [resourceArmVirtualDesktopApplicationGroupDelete, hparse]
    · rcases hdel : client.Delete s rid.ResourceGroup rid.Name with ⟨f, err, s1⟩
      cases err <;> simp [resourceArmVirtualDesktopApplicationGroupDelete, hparse, hdel]
  · intro herr
    rcases createUpdate_cases h client d s with
      ⟨hsame, _, hnoset⟩ | ⟨s1, tr1, s2, result, s3, id, hp, hc, hg, hid, hmem, hd, he⟩
    · exact Or.inl ⟨hsame, hnoset⟩
    · right
      rw [he] at herr
      refine ⟨s1, tr1, s2, result, s3, id, hp, hc, hg, hid, hmem, ?_⟩
      rcases read_error_state h client (d.SetId id) s3 herr with
        hkeep | ⟨rid, resp, s4, e, hrid, hget, ht, hwrite⟩
      · rw [hd, hkeep]
        exact Or.inl rfl
      · rw [hd, hwrite]
        exact Or.inr ⟨rid, resp, s4, e, hrid, hget, ht, rfl⟩
  · intro hok
    rcases createUpdate_cases h client d s with
      ⟨_, hbad, _⟩ | ⟨s1, tr1, s2, result, s3, id, hp, hc, hg, hid, hmem, hd, he⟩
    · exact absurd hok hbad
    · rw [he] at hok
      refine ⟨s1, tr1, s2, result, s3, id, hp, hc, hg, hid, hmem, ?_⟩
      rcases read_success_state h client (d.SetId id) s3 hok with
        ⟨rid, resp, e, s4, hrid, hget, hnf, hclear⟩ | ⟨rid, resp, s4, hrid, hget, ht, hfull⟩
      · rw [hd, hclear]
        exact Or.inl ⟨rid, resp, e, s4, hrid, hget, hnf, rfl⟩
      · rw [hd, hfull]
        exact Or.inr ⟨rid, resp, s4, hrid, hget, ht, rfl⟩

/-- Witness of `handlers_state_after_call`: a Read whose tag write is refused, a Read
answered not-found, a fresh creation whose built-in read fails, and a fresh creation
that goes through. -/
theorem handlers_state_after_call_witness :
    ((resourceArmVirtualDesktopApplicationGroupRead refusingHelpers (scriptedClient none failedDeletion) trackedState [(movedGroup, none)]).err ≠ none ∧
      ((resourceArmVirtualDesktopApplicationGroupRead refusingHelpers (scriptedClient none failedDeletion) trackedState [(movedGroup, none)]).d = trackedState ∨
      ∃ id resp s1 e, refusingHelpers.VirtualDesktopApplicationGroupID trackedState.Id = .ok id ∧
        (scriptedClient none failedDeletion).Get [(movedGroup, none)] id.ResourceGroup id.Name = (resp, none, s1) ∧
        refusingHelpers.SetTags (Flatten resp.Tags) = some e ∧
        (resourceArmVirtualDesktopApplicationGroupRead refusingHelpers (scriptedClient none failedDeletion) trackedState [(movedGroup, none)]).d = readFields refusingHelpers trackedState id resp)) ∧
    ((resourceArmVirtualDesktopApplicationGroupRead sampleHelpers (scriptedClient none failedDeletion) trackedState [notFoundAnswer]).err = none ∧
      ((∃ id resp e s1, sampleHelpers.VirtualDesktopApplicationGroupID trackedState.Id = .ok id ∧
        (scriptedClient none failedDeletion).Get [notFoundAnswer] id.ResourceGroup id.Name = (resp, some e, s1) ∧
        ResponseWasNotFound resp.Response = true ∧
        (resourceArmVirtualDesktopApplicationGroupRead sampleHelpers (scriptedClient none failedDeletion) trackedState [notFoundAnswer]).d = trackedState.SetId "") ∨
      ∃ id resp s1, sampleHelpers.VirtualDesktopApplicationGroupID trackedState.Id = .ok id ∧
        (scriptedClient none failedDeletion).Get [notFoundAnswer] id.ResourceGroup id.Name = (resp, none, s1) ∧
        sampleHelpers.SetTags (Flatten resp.Tags) = none ∧
        (resourceArmVirtualDesktopApplicationGroupRead sampleHelpers (scriptedClient none failedDeletion) trackedState [notFoundAnswer]).d =
          { readFields sampleHelpers trackedState id resp with tags := Flatten resp.Tags })) ∧
    ((resourceArmVirtualDesktopApplicationGroupCreateUpdate sampleHelpers (scriptedClient none failedDeletion) freshState createThenReadFails).err ≠ none ∧
      (((resourceArmVirtualDesktopApplicationGroupCreateUpdate sampleHelpers (scriptedClient none failedDeletion) freshState createThenReadFails).d = freshState ∧
        ∀ v, Event.SetId v ∉ (resourceArmVirtualDesktopApplicationGroupCreateUpdate sampleHelpers (scriptedClient none failedDeletion) freshState createThenReadFails).trace) ∨
      ∃ s1 tr1 s2 result s3 id,
        existenceProbe (scriptedClient none failedDeletion) freshState createThenReadFails = (none, s1, tr1) ∧
        (scriptedClient none failedDeletion).CreateOrUpdate s1 freshState.resource_group_name freshState.name (buildParameters sampleHelpers freshState) =
          (none, s2) ∧
        (scriptedClient none failedDeletion).Get s2 freshState.resource_group_name freshState.name = (result, none, s3) ∧
        result.ID = some id ∧
        Event.SetId id ∈ (resourceArmVirtualDesktopApplicationGroupCreateUpdate sampleHelpers (scriptedClient none failedDeletion) freshState createThenReadFails).trace ∧
        ((resourceArmVirtualDesktopApplicationGroupCreateUpdate sampleHelpers (scriptedClient none failedDeletion) freshState createThenReadFails).d = freshState.SetId id ∨
         ∃ rid resp s4 e, sampleHelpers.VirtualDesktopApplicationGroupID id = .ok rid ∧
          (scriptedClient none failedDeletion).Get s3 rid.ResourceGroup rid.Name = (resp, none, s4) ∧
          sampleHelpers.SetTags (Flatten resp.Tags) = some e ∧
          (resourceArmVirtualDesktopApplicationGroupCreateUpdate sampleHelpers (scriptedClient none failedDeletion) freshState createThenReadFails).d = readFields sampleHelpers (freshState.SetId id) rid resp))) ∧
    ((resourceArmVirtualDesktopApplicationGroupCreateUpdate sampleHelpers (scriptedClient none failedDeletion) freshState createAndRead).err = none ∧
      (∃ s1 tr1 s2 result s3 id,
        existenceProbe (scriptedClient none failedDeletion) freshState createAndRead = (none, s1, tr1) ∧
        (scriptedClient none failedDeletion).CreateOrUpdate s1 freshState.resource_group_name freshState.name (buildParameters sampleHelpers freshState) =
          (none, s2) ∧
        (scriptedClient none failedDeletion).Get s2 freshState.resource_group_name freshState.name = (result, none, s3) ∧
        result.ID = some id ∧
        Event.SetId id ∈ (resourceArmVirtualDesktopApplicationGroupCreateUpdate sampleHelpers (scriptedClient none failedDeletion) freshState createAndRead).trace ∧
        ((∃ rid resp e s4, sampleHelpers.VirtualDesktopApplicationGroupID id = .ok rid ∧
          (scriptedClient none failedDeletion).Get s3 rid.ResourceGroup rid.Name = (resp, some e, s4) ∧
          ResponseWasNotFound resp.Response = true ∧
          (resourceArmVirtualDesktopApplicationGroupCreateUpdate sampleHelpers (scriptedClient none failedDeletion) freshState createAndRead).d = freshState.SetId "") ∨
         ∃ rid resp s4, sampleHelpers.VirtualDesktopApplicationGroupID id = .ok rid ∧
          (scriptedClient none failedDeletion).Get s3 rid.ResourceGroup rid.Name = (resp, none, s4) ∧
          sampleHelpers.SetTags (Flatten resp.Tags) = none ∧
          (resourceArmVirtualDesktopApplicationGroupCreateUpdate sampleHelpers (scriptedClient none failedDeletion) freshState createAndRead).d =
            { readFields sampleHelpers (freshState.SetId id) rid resp with tags := Flatten resp.Tags }))) :=
  ⟨⟨by decide,
    (handlers_state_after_call refusingHelpers (scriptedClient none failedDeletion) trackedState
      [(movedGroup, none)]).2.1 (by decide)⟩,
   ⟨by decide,
    (handlers_state_after_call sampleHelpers (scriptedClient none failedDeletion) trackedState
      [notFoundAnswer]).2.2.1 (by decide)⟩,
   ⟨by decide,
    (handlers_state_after_call sampleHelpers (scriptedClient none failedDeletion) freshState
      createThenReadFails).2.2.2.1 (by decide)⟩,
   ⟨by decide,
    (handlers_state_after_call sampleHelpers (scriptedClient none failedDeletion) freshState
      createAndRead).2.2.2.2 (by decide)⟩⟩

/-! ## The acceptance test's existence check -/

/-- What the existence check does when the failed `Get` comes with an HTTP response:
it reports absence for status 404 and passes the error on for any other status. -/
theorem exists_check_with_response {σ : Type}
    (parseID : String → Except Error DesktopVirtualizationWorkspaceId)
    (client : WorkspacesClient σ) (resourceName : String)
    (resources : List (String × ResourceState)) (s s1 : σ) (rs : ResourceState)
    (id : DesktopVirtualizationWorkspaceId) (result : Workspace) (e : String) (code : Nat)
    (hrs : resources.lookup resourceName = some rs)
    (hparse : parseID rs.PrimaryID = .ok id)
    (hget : client.Get s id.ResourceGroup id.Name = (result, some e, s1))
    (hresp : result.Response = some code) :
    (testCheckAzureRMDesktopVirtualizationWorkspaceExists parseID client resourceName
        resources s).1 =
      if code = 404 then
        CheckResult.returned (some (Error.Errorf
          "Bad: Virtual Desktop Workspace %q (Resource Group: %q) does not exist"
          [id.Name, id.ResourceGroup]))
      else
        CheckResult.returned (some (Error.Errorf
          "Bad: Get virtualDesktopWorspaceClient: %+v" [e])) := by
  simp only [testCheckAzureRMDesktopVirtualizationWorkspaceExists, hrs, hparse, hget, hresp]
  split <;> rfl

/-- C9, the code at the failing input: when `Get` fails in transport, with an error
and no HTTP response attached, the existence check does not return the error: reading
`result.StatusCode` dereferences nil. -/
theorem exists_check_transport_failure :
    transportFailureClient.Get () "acctestRG-123" "acctws123" =
      (⟨none, none⟩, some "context deadline exceeded", ()) ∧
    testCheckAzureRMDesktopVirtualizationWorkspaceExists sampleWorkspaceID
        transportFailureClient "azurerm_virtual_desktop_workspace.test" trackedWorkspaces () =
      (CheckResult.nilDereference, [Event.Get "acctestRG-123" "acctws123"]) := by
  decide

/-! ## Schema validation -/

/-- C10, the claim as stated fails: a string of 33 characters, each of two bytes, is
rejected for `friendly_name` although its length in characters is between 1 and 64. -/
theorem friendly_name_rejects_33_characters :
    accented33.length = 33 ∧ len accented33 = 66 ∧
    accepts sampleSchemaHelpers "friendly_name" accented33 = false := by
  decide

/-- C10, amended: `friendly_name` and `description` are optional fields of the schema;
a value is accepted for `friendly_name` exactly when its length in bytes (Go's `len`)
is between 1 and 64, and for `description` exactly when it is between 1 and 512.  The
length in bytes is at least the number of characters, and equal to it for ASCII
strings, so the empty string and strings of 65 (resp. 513) characters or more are
rejected. -/
theorem friendly_name_description_byte_length (h : SchemaHelpers) (v : String) :
    (schemaField h "friendly_name").map (fun sch => sch.Optional) = some true ∧
    (schemaField h "description").map (fun sch => sch.Optional) = some true ∧
    (accepts h "friendly_name" v = true ↔ 1 ≤ len v ∧ len v ≤ 64) ∧
    (accepts h "description" v = true ↔ 1 ≤ len v ∧ len v ≤ 512) ∧
    accepts h "friendly_name" "" = false ∧
    accepts h "description" "" = false ∧
    (65 ≤ v.length → accepts h "friendly_name" v = false) ∧
    (513 ≤ v.length → accepts h "description" v = false) ∧
    ((∀ c ∈ v.data, c.toNat < 128) →
      (accepts h "friendly_name" v = true ↔ 1 ≤ v.length ∧ v.length ≤ 64) ∧
      (accepts h "description" v = true ↔ 1 ≤ v.length ∧ v.length ≤ 512)) := by
  have hf : ∀ w : String, accepts h "friendly_name" w = (StringLenBetween 1 64 w "friendly_name").isEmpty :=
    fun _ => rfl
  have hd : ∀ w : String, accepts h "description" w = (StringLenBetween 1 512 w "description").isEmpty :=
    fun _ => rfl
  have hb : ∀ (lo hi : Nat) (w k : String),
      (StringLenBetween lo hi w k).isEmpty = true ↔ lo ≤ len w ∧ len w ≤ hi := by
    intro lo hi w k
    unfold StringLenBetween
    split
    · rename_i hbad
      simp only [List.isEmpty_cons, Bool.false_eq_true, false_iff]
      omega
    · rename_i hgood
      simp only [List.isEmpty_nil, true_iff]
      omega
  have hlen := length_le_len v
  have hF : accepts h "friendly_name" v = true ↔ 1 ≤ len v ∧ len v ≤ 64 := by
    rw [hf]; exact hb 1 64 v _
  have hD : accepts h "description" v = true ↔ 1 ≤ len v ∧ len v ≤ 512 := by
    rw [hd]; exact hb 1 512 v _
  refine ⟨rfl, rfl, hF, hD, ?_, ?_, ?_, ?_, ?_⟩
  · rw [hf]; rfl
  · rw [hd]; rfl
  · intro h65
    cases hacc : accepts h "friendly_name" v with
    | false => rfl
    | true => have := hF.mp hacc; omega
  · intro h513
    cases hacc : accepts h "description" v with
    | false => rfl
    | true => have := hD.mp hacc; omega
  · intro hascii
    rw [← len_eq_length_of_ascii v hascii]
    exact ⟨hF, hD⟩

/-- Witness of `friendly_name_description_byte_length`: the friendly name of the
acceptance test, 15 ASCII characters, is accepted; 65 ASCII characters are not. -/
theorem friendly_name_description_byte_length_witness :
    (∀ c ∈ "acceptance test".data, c.toNat < 128) ∧
    accepts sampleSchemaHelpers "friendly_name" "acceptance test" = true ∧
    65 ≤ (String.mk (List.replicate 65 (Char.ofNat 97))).length ∧
    accepts sampleSchemaHelpers "friendly_name"
      (String.mk (List.replicate 65 (Char.ofNat 97))) = false :=
  ⟨by decide,
   (((friendly_name_description_byte_length sampleSchemaHelpers "acceptance test").2.2.2.2.2.2.2.2
      (by decide)).1).mpr (by decide),
   by decide,
   (friendly_name_description_byte_length sampleSchemaHelpers
      (String.mk (List.replicate 65 (Char.ofNat 97)))).2.2.2.2.2.2.1 (by decide)⟩

end DesktopVirtualization
